import Mathlib

/-!
Shallow embedding of the identity & secure-channel subsystem of the
repository (the security service, `services/security/app.py`), together with
theorems settling the specification's claims about it.

Modelling conventions:
* Python dicts keyed by strings become association lists (`List (String × β)`)
  with first-match lookup and in-place replacement on key collision, which is
  exactly Python's dict get/set semantics.
* Time is a `Nat` (seconds); `datetime.utcnow() + timedelta(hours=24)` becomes
  `now + 86400`.
* Third-party cryptographic primitives (bcrypt, PyJWT's HMAC signature,
  Fernet) are modelled from their documented contracts as injective tagged
  values: a bcrypt hash records its salt and verifies only the original
  password; a JWT signature is valid only when it equals the keyed MAC of the
  carried payload (modelled as the pair of secret and payload, injective in
  both arguments); a Fernet token decrypts to its plaintext only under the
  generating key. All source-level control flow (validation order, error
  branches, audit appends) is translated from the Python source.
-/

namespace SecurityService

/-- Association-list lookup with Python dict semantics: first (hence only)
binding of the key. -/
def dictGet {β : Type} : List (String × β) → String → Option β
  | [], _ => none
  | kv :: rest, k => if kv.1 == k then some kv.2 else dictGet rest k

/-- Association-list update with Python dict assignment semantics: replace the
existing binding in place, otherwise append at the end (insertion order). -/
def dictSet {β : Type} : List (String × β) → String → β → List (String × β)
  | [], k, v => [(k, v)]
  | kv :: rest, k, v => if kv.1 == k then (k, v) :: rest else kv :: dictSet rest k v

/-- Modelled from the bcrypt library contract: `hashpw(password, gensalt())`
produces a salted one-way hash; `checkpw` succeeds exactly when the same
password is presented against the hash. -/
structure BcryptHash where
  salt : Nat
  pw : String
deriving DecidableEq

def hashpw (password : String) (salt : Nat) : BcryptHash :=
  { salt := salt, pw := password }

def checkpw (password : String) (h : BcryptHash) : Bool :=
  h.pw == password

/-- User record as stored in `users_db` (source lines 120-126). -/
structure User where
  username : String
  password_hash : BcryptHash
  email : String
  created_at : Nat
  is_active : Bool
deriving DecidableEq

abbrev UsersDb := List (String × User)

/-- Audit event appended by `log_security_event` (source lines 40-49). -/
structure AuditEvent where
  timestamp : Nat
  event_type : String
  user_id : Option String
  details : List (String × String)
  source_ip : Option String
deriving DecidableEq

/-- Source `log_security_event`: build the event record and append it to the
in-memory `security_logs` list. -/
def log_security_event (logs : List AuditEvent) (event_type : String)
    (user_id : Option String) (details : List (String × String))
    (now : Nat) (ip : Option String) : List AuditEvent :=
  logs ++ [{ timestamp := now, event_type := event_type, user_id := user_id,
             details := details, source_ip := ip }]

/-- JWT payload built by `generate_jwt_token` (source lines 61-65). -/
structure JwtPayload where
  user_id : String
  exp : Nat
  iat : Nat
deriving DecidableEq

/-- Modelled from the PyJWT contract: a token is a payload plus a signature;
the signature is the keyed MAC of the payload under the signing secret,
modelled as the pair of the secret and the signed payload (injective in both,
so any mutation of payload or signature invalidates the token). -/
structure Jwt where
  payload : JwtPayload
  sig : String × JwtPayload
deriving DecidableEq

def jwt_encode (secret : String) (p : JwtPayload) : Jwt :=
  { payload := p, sig := (secret, p) }

inductive JwtError where
  | expired
  | invalid
deriving DecidableEq

/-- Modelled from PyJWT `jwt.decode`: verify the signature first (raising
`InvalidTokenError` on mismatch), then the `exp` claim, which raises
`ExpiredSignatureError` when `exp <= now` (zero leeway). -/
def jwt_decode (secret : String) (tok : Jwt) (now : Nat) : Except JwtError JwtPayload :=
  if tok.sig = (secret, tok.payload) then
    if tok.payload.exp ≤ now then Except.error JwtError.expired
    else Except.ok tok.payload
  else Except.error JwtError.invalid

/-- Source `generate_jwt_token`: payload `{user_id, exp = now + 24h, iat = now}`
signed with the process-wide `JWT_SECRET`. -/
def generate_jwt_token (jwtSecret : String) (user_id : String) (now : Nat) : Jwt :=
  jwt_encode jwtSecret { user_id := user_id, exp := now + 86400, iat := now }

/-- Source `verify_jwt_token`: decode and return `payload['user_id']`; both
`ExpiredSignatureError` and `InvalidTokenError` are caught and collapsed to
`None`. -/
def verify_jwt_token (jwtSecret : String) (tok : Jwt) (now : Nat) : Option String :=
  match jwt_decode jwtSecret tok now with
  | Except.ok p => some p.user_id
  | Except.error _ => none

/-- Source `authenticate_user`: look the username up in `users_db` and check
the bcrypt hash; no `is_active` check happens here. -/
def authenticate_user (db : UsersDb) (username password : String) : Option User :=
  match dictGet db username with
  | some user => if checkpw password user.password_hash then some user else none
  | none => none

/-- Outcome of a protected call after the `require_auth` decorator. -/
inductive GateResult (α : Type) where
  | unauthorized (error : String)
  | ok (res : α)
deriving DecidableEq

/-- Source `require_auth` decorator. The `Authorization` header is modelled as
`Option Jwt`: `none` stands for a missing (or empty) header, `some tok` for a
header carrying the token `tok` (the `Bearer ` scheme-prefix strip is pure
transport and is elided). A falsy `user_id` from `verify_jwt_token` — `None`
or the empty string — logs an `unauthorized_access` event with the
corresponding reason and returns 401; only otherwise does the wrapped handler
run, receiving the resolved user id. -/
def require_auth {α : Type} (jwtSecret : String) (header : Option Jwt)
    (now : Nat) (ip : Option String) (logs : List AuditEvent)
    (handler : String → List AuditEvent → List AuditEvent × α) :
    List AuditEvent × GateResult α :=
  match header with
  | none =>
      (log_security_event logs "unauthorized_access" none [("reason", "no_token")] now ip,
       GateResult.unauthorized "Authentication required")
  | some tok =>
      match verify_jwt_token jwtSecret tok now with
      | none =>
          (log_security_event logs "unauthorized_access" none [("reason", "invalid_token")] now ip,
           GateResult.unauthorized "Invalid token")
      | some uid =>
          if uid = "" then
            (log_security_event logs "unauthorized_access" none [("reason", "invalid_token")] now ip,
             GateResult.unauthorized "Invalid token")
          else
            ((handler uid logs).1, GateResult.ok (handler uid logs).2)

/-- Response of the `/login` endpoint: an error with its HTTP status and body,
or the success payload `{token, user: {username, email}}`. -/
inductive LoginResult where
  | failure (status : Nat) (error : String)
  | success (token : Jwt) (username : String) (email : String)
deriving DecidableEq

/-- Source `login` endpoint (lines 141-178): validation, `login_attempt` audit
event, `authenticate_user`, the separate `is_active` gate, token issuance. -/
def login (db : UsersDb) (jwtSecret : String) (username password : String)
    (now : Nat) (ip : Option String) (logs : List AuditEvent) :
    List AuditEvent × LoginResult :=
  if username = "" ∨ password = "" then
    (logs, LoginResult.failure 400 "Username and password are required")
  else
    let logs1 := log_security_event logs "login_attempt" (some username) [] now ip
    match authenticate_user db username password with
    | none =>
        (log_security_event logs1 "login_failure" (some username)
           [("reason", "invalid_credentials")] now ip,
         LoginResult.failure 401 "Invalid credentials")
    | some user =>
        if user.is_active = false then
          (log_security_event logs1 "login_failure" (some username)
             [("reason", "account_disabled")] now ip,
           LoginResult.failure 403 "Account disabled")
        else
          (log_security_event logs1 "login_success" (some username) [] now ip,
           LoginResult.success (generate_jwt_token jwtSecret username now) username user.email)

/-- Modelled from the cryptography library Fernet contract: a ciphertext
records the generating key and a fresh nonce together with the plaintext;
decryption recovers the plaintext exactly under the generating key and fails
otherwise. -/
structure FernetToken where
  key : Nat
  nonce : Nat
  plaintext : String
deriving DecidableEq

def fernet_encrypt (key : Nat) (nonce : Nat) (p : String) : FernetToken :=
  { key := key, nonce := nonce, plaintext := p }

def fernet_decrypt (key : Nat) (c : FernetToken) : Option String :=
  if c.key = key then some c.plaintext else none

/-- Response of the `/encrypt` endpoint. The success body mirrors the
source's `jsonify` fields: the ciphertext AND the raw process-wide
`ENCRYPTION_KEY` (source lines 199-203). -/
inductive EncryptResult where
  | err (status : Nat) (error : String)
  | success (encrypted_data : FernetToken) (encryption_key : Nat)
deriving DecidableEq

/-- Source `encrypt_data` endpoint body (after `require_auth`): reject falsy
(empty) plaintext with 400, otherwise encrypt under the process key, log the
operation, and return the ciphertext together with `ENCRYPTION_KEY`. -/
def encrypt_data (key : Nat) (nonce : Nat) (user_id : String) (plaintext : String)
    (now : Nat) (ip : Option String) (logs : List AuditEvent) :
    List AuditEvent × EncryptResult :=
  if plaintext = "" then (logs, EncryptResult.err 400 "Data to encrypt is required")
  else
    (log_security_event logs "encryption_operation" (some user_id)
       [("operation", "encrypt"), ("data_length", toString plaintext.length)] now ip,
     EncryptResult.success (fernet_encrypt key nonce plaintext) key)

/-- Response of the `/decrypt` endpoint. -/
inductive DecryptResult where
  | err (status : Nat) (error : String)
  | success (decrypted_data : String)
deriving DecidableEq

/-- Source `decrypt_data` endpoint body: the request field is `Option
FernetToken` (`none` stands for a missing or empty `data` field, rejected
with 400); a Fernet decryption failure raises and is caught by the generic
handler as a 500. -/
def decrypt_data (key : Nat) (user_id : String) (body : Option FernetToken)
    (now : Nat) (ip : Option String) (logs : List AuditEvent) :
    List AuditEvent × DecryptResult :=
  match body with
  | none => (logs, DecryptResult.err 400 "Encrypted data is required")
  | some c =>
    match fernet_decrypt key c with
    | none => (logs, DecryptResult.err 500 "InvalidToken")
    | some p =>
        (log_security_event logs "encryption_operation" (some user_id)
           [("operation", "decrypt"), ("data_length", toString p.length)] now ip,
         DecryptResult.success p)

/-- Protocol record stored in `custom_protocols` (source lines 252-261). -/
structure Protocol where
  id : String
  name : String
  encryption_algorithm : String
  key_length : Nat
  authentication_method : String
  bypass_security : Bool
  user_id : String
  created_at : Nat
deriving DecidableEq

abbrev ProtocolsDb := List (String × Protocol)

/-- Source line 250: `protocol_id = f"{user_id}_{protocol_name.replace(' ', '_').lower()}"`.
Python's single-character `str.replace` is a character map. -/
def protocolId (user_id protocol_name : String) : String :=
  user_id ++ "_" ++
    String.mk ((protocol_name.data.map (fun c => if c = ' ' then '_' else c)).map Char.toLower)

/-- Response of the `/create-protocol` endpoint. -/
inductive CreateResult where
  | err (status : Nat) (error : String)
  | success (protocol_id : String) (protocol : Protocol)
deriving DecidableEq

/-- Source `create_custom_protocol` endpoint body: reject an empty name with
400, otherwise build the record and assign `custom_protocols[protocol_id] =
protocol` unconditionally — there is no presence check before the
assignment. -/
def create_custom_protocol (db : ProtocolsDb) (user_id : String) (protocol_name : String)
    (encryption_algorithm : String) (key_length : Nat) (authentication_method : String)
    (bypass_security : Bool) (now : Nat) (ip : Option String) (logs : List AuditEvent) :
    ProtocolsDb × List AuditEvent × CreateResult :=
  if protocol_name = "" then (db, logs, CreateResult.err 400 "Protocol name is required")
  else
    let pid := protocolId user_id protocol_name
    let p : Protocol :=
      { id := pid, name := protocol_name, encryption_algorithm := encryption_algorithm,
        key_length := key_length, authentication_method := authentication_method,
        bypass_security := bypass_security, user_id := user_id, created_at := now }
    (dictSet db pid p,
     log_security_event logs "custom_protocol_usage" (some user_id)
       [("protocol_id", pid), ("action", "create"),
        ("bypass_security", toString bypass_security)] now ip,
     CreateResult.success pid p)

/-- Response of the `/apply-protocol/{id}` endpoint. -/
inductive ApplyResult where
  | err (status : Nat) (error : String)
  | success (secured_data : String) (protocol_details : Protocol)
deriving DecidableEq

/-- Source `apply_custom_protocol` endpoint body: 404 when the id is unknown,
403 when the stored owner differs from the authenticated caller (checked
before the request body is read), 400 on empty data, otherwise the simulated
secured representation. -/
def apply_custom_protocol (db : ProtocolsDb) (user_id : String) (protocol_id : String)
    (target_data : String) (now : Nat) (ip : Option String) (logs : List AuditEvent) :
    List AuditEvent × ApplyResult :=
  match dictGet db protocol_id with
  | none => (logs, ApplyResult.err 404 "Protocol not found")
  | some protocol =>
    if protocol.user_id ≠ user_id then (logs, ApplyResult.err 403 "Access denied")
    else if target_data = "" then (logs, ApplyResult.err 400 "Data to secure is required")
    else
      (log_security_event logs "custom_protocol_usage" (some user_id)
         [("protocol_id", protocol_id), ("action", "apply"),
          ("data_length", toString target_data.length)] now ip,
       ApplyResult.success
         ("Secured " ++ target_data ++ " with " ++ protocol.encryption_algorithm ++ ", " ++
          toString protocol.key_length ++ "-bit key, and " ++ protocol.authentication_method ++
          " authentication.")
         protocol)

/-- Source `get_security_logs` endpoint body: a pure read returning the log
state unchanged paired with the filtered view
`[log for log in security_logs if log.get('user_id') == user_id]`. -/
def get_security_logs (logs : List AuditEvent) (user_id : String) :
    List AuditEvent × List AuditEvent :=
  (logs, logs.filter (fun e => e.user_id == some user_id))

/-- Outcome of one `register` call (source lines 102-139). -/
inductive RegisterResult where
  | validation
  | conflict
  | success
deriving DecidableEq

/-- One in-flight `register` request, for the interleaving model of the
source's check-then-insert. `pc = 0`: about to run the validation and the
`username in users_db` check; `pc = 1`: passed the check, about to run the
expensive bcrypt hash (which releases the interpreter lock) and then the
`users_db[username] = user` insertion; `pc = 2`: finished, with `res` the
response. The audit append is elided: it touches neither the user table nor
the response. -/
structure RegThread where
  username : String
  password : String
  email : String
  salt : Nat
  now : Nat
  pc : Nat
  res : Option RegisterResult
deriving DecidableEq

/-- One atomic step of a `register` thread against the shared `users_db`,
translated from the source: validation and the membership check are the first
atomic unit (lines 111-115), the insertion (line 128) the second; the bcrypt
hash between them runs outside any lock, so other threads may interleave
between the check and the insertion. -/
def regStep (db : UsersDb) (t : RegThread) : UsersDb × RegThread :=
  if t.pc = 0 then
    if t.username = "" ∨ t.password = "" ∨ t.email = "" then
      (db, { t with pc := 2, res := some RegisterResult.validation })
    else if (dictGet db t.username).isSome then
      (db, { t with pc := 2, res := some RegisterResult.conflict })
    else
      (db, { t with pc := 1 })
  else if t.pc = 1 then
    (dictSet db t.username
       { username := t.username, password_hash := hashpw t.password t.salt,
         email := t.email, created_at := t.now, is_active := true },
     { t with pc := 2, res := some RegisterResult.success })
  else (db, t)

/-- Run a schedule (a list of thread indices) over a pool of concurrent
`register` threads; each scheduled index performs one atomic step. -/
def runSchedule : UsersDb → List RegThread → List Nat → UsersDb × List RegThread
  | db, ts, [] => (db, ts)
  | db, ts, i :: rest =>
    match ts.get? i with
    | none => runSchedule db ts rest
    | some t => runSchedule (regStep db t).1 (ts.set i (regStep db t).2) rest

/-- Concrete thread: first of two concurrent registrations of username "u". -/
def regThreadA : RegThread :=
  { username := "u", password := "p1", email := "e1", salt := 1, now := 10, pc := 0, res := none }

/-- Concrete thread: second concurrent registration of the same username "u". -/
def regThreadB : RegThread :=
  { username := "u", password := "p2", email := "e2", salt := 2, now := 11, pc := 0, res := none }

/-- Concrete registered user record for witnesses. -/
def aliceUser : User :=
  { username := "alice", password_hash := hashpw "pw" 5, email := "a@x.com",
    created_at := 0, is_active := true }

/-- Concrete protocol record (owned by "a", with `bypass_security = true`)
for witnesses. -/
def protoA : Protocol :=
  { id := "a_p", name := "p", encryption_algorithm := "AES", key_length := 256,
    authentication_method := "OAuth 2.0", bypass_security := true,
    user_id := "a", created_at := 0 }

/-- Concrete audit event attributed to user "a", for witnesses. -/
def eventA : AuditEvent :=
  { timestamp := 0, event_type := "login_attempt", user_id := some "a",
    details := [], source_ip := none }

/-- Concrete audit event attributed to user "b", for witnesses. -/
def eventB : AuditEvent :=
  { timestamp := 1, event_type := "login_attempt", user_id := some "b",
    details := [], source_ip := none }

/-- Dict assignment followed by lookup of the assigned key yields the assigned
value (Python dict semantics). -/
theorem dictGet_dictSet_self {β : Type} (db : List (String × β)) (k : String) (v : β) :
    dictGet (dictSet db k v) k = some v := by
  induction db with
  | nil => simp [dictGet, dictSet]
  | cons kv rest ih =>
    by_cases h : kv.1 = k
    · simp [dictGet, dictSet, h]
    · simp [dictGet, dictSet, h, ih]

/-- Claim C1. The claim states that the encrypt response never contains the
process-wide symmetric key. The code violates it: on the authenticated encrypt
call with plaintext "hello" and process key 42, the success response carries
the raw `ENCRYPTION_KEY` (42) alongside the ciphertext — evaluating the code
at the failing input exhibits the key in the response. -/
theorem encrypt_response_contains_process_key :
    (encrypt_data 42 7 "alice" "hello" 0 none []).2 =
      EncryptResult.success (fernet_encrypt 42 7 "hello") 42 := rfl

/-- Claim C5 counterexample: the encrypt endpoint rejects the empty plaintext
with a 400 validation error, so empty plaintext is not a valid input and does
not round-trip. -/
theorem encrypt_rejects_empty_plaintext :
    (encrypt_data 42 7 "alice" "" 0 none []).2 =
      EncryptResult.err 400 "Data to encrypt is required" := rfl

/-- Claim C5 as amended: for every nonempty plaintext, encrypt succeeds and
decrypting the produced ciphertext under the process key returns exactly the
plaintext; the empty string is rejected by the endpoint's validation. -/
theorem encrypt_decrypt_roundtrip_nonempty (key nonce : Nat) (uid p : String)
    (now : Nat) (ip : Option String) (logs : List AuditEvent) (h : p ≠ "") :
    (encrypt_data key nonce uid p now ip logs).2 =
      EncryptResult.success (fernet_encrypt key nonce p) key
    ∧ (decrypt_data key uid (some (fernet_encrypt key nonce p)) now ip logs).2 =
      DecryptResult.success p := by
  constructor
  · simp [encrypt_data, h]
  · simp [decrypt_data, fernet_decrypt, fernet_encrypt]

/-- Claim C5 amended, witness at plaintext "hi". -/
theorem encrypt_decrypt_roundtrip_nonempty_witness :
    (encrypt_data 1 2 "u" "hi" 0 none []).2 = EncryptResult.success (fernet_encrypt 1 2 "hi") 1
    ∧ (decrypt_data 1 "u" (some (fernet_encrypt 1 2 "hi")) 0 none []).2 =
      DecryptResult.success "hi" :=
  encrypt_decrypt_roundtrip_nonempty 1 2 "u" "hi" 0 none [] (by decide)

/-- Claim C2 counterexample: creating protocol "p" for owner "a" twice does
not fail with Conflict — the second call succeeds and the stored record is
replaced by the second call's record (algorithm "RSA"), so the existing
protocol record does not stay unchanged. -/
theorem create_protocol_duplicate_overwrites :
    (create_custom_protocol
       (create_custom_protocol [] "a" "p" "AES" 256 "OAuth 2.0" false 0 none []).1
       "a" "p" "RSA" 128 "LDAP" true 1 none []).2.2 =
      CreateResult.success "a_p"
        { id := "a_p", name := "p", encryption_algorithm := "RSA", key_length := 128,
          authentication_method := "LDAP", bypass_security := true, user_id := "a",
          created_at := 1 }
    ∧ dictGet
        (create_custom_protocol
          (create_custom_protocol [] "a" "p" "AES" 256 "OAuth 2.0" false 0 none []).1
          "a" "p" "RSA" 128 "LDAP" true 1 none []).1 "a_p" =
      some
        { id := "a_p", name := "p", encryption_algorithm := "RSA", key_length := 128,
          authentication_method := "LDAP", bypass_security := true, user_id := "a",
          created_at := 1 } := by decide

/-- Claim C2 as amended: re-creating a protocol with the same owner and name
computes the same id, succeeds (no Conflict), and silently replaces the
existing record with the new one in the registry. -/
theorem create_protocol_same_name_silent_overwrite (db : ProtocolsDb)
    (uid name alg1 am1 alg2 am2 : String) (kl1 kl2 t1 t2 : Nat) (b1 b2 : Bool)
    (ip1 ip2 : Option String) (logs1 logs2 : List AuditEvent) (h : name ≠ "") :
    (create_custom_protocol db uid name alg1 kl1 am1 b1 t1 ip1 logs1).2.2 =
      CreateResult.success (protocolId uid name)
        { id := protocolId uid name, name := name, encryption_algorithm := alg1,
          key_length := kl1, authentication_method := am1, bypass_security := b1,
          user_id := uid, created_at := t1 }
    ∧ (create_custom_protocol
         (create_custom_protocol db uid name alg1 kl1 am1 b1 t1 ip1 logs1).1
         uid name alg2 kl2 am2 b2 t2 ip2 logs2).2.2 =
      CreateResult.success (protocolId uid name)
        { id := protocolId uid name, name := name, encryption_algorithm := alg2,
          key_length := kl2, authentication_method := am2, bypass_security := b2,
          user_id := uid, created_at := t2 }
    ∧ dictGet
        (create_custom_protocol
          (create_custom_protocol db uid name alg1 kl1 am1 b1 t1 ip1 logs1).1
          uid name alg2 kl2 am2 b2 t2 ip2 logs2).1 (protocolId uid name) =
      some
        { id := protocolId uid name, name := name, encryption_algorithm := alg2,
          key_length := kl2, authentication_method := am2, bypass_security := b2,
          user_id := uid, created_at := t2 } := by
  refine ⟨?_, ?_, ?_⟩
  · simp [create_custom_protocol, h]
  · simp [create_custom_protocol, h]
  · simp [create_custom_protocol, h, dictGet_dictSet_self]

/-- Claim C2 amended, witness at owner "a", name "p". -/
theorem create_protocol_same_name_silent_overwrite_witness :
    (create_custom_protocol [] "a" "p" "AES" 256 "OAuth 2.0" false 0 none []).2.2 =
      CreateResult.success (protocolId "a" "p")
        { id := protocolId "a" "p", name := "p", encryption_algorithm := "AES",
          key_length := 256, authentication_method := "OAuth 2.0", bypass_security := false,
          user_id := "a", created_at := 0 }
    ∧ (create_custom_protocol
         (create_custom_protocol [] "a" "p" "AES" 256 "OAuth 2.0" false 0 none []).1
         "a" "p" "RSA" 128 "LDAP" true 1 none []).2.2 =
      CreateResult.success (protocolId "a" "p")
        { id := protocolId "a" "p", name := "p", encryption_algorithm := "RSA",
          key_length := 128, authentication_method := "LDAP", bypass_security := true,
          user_id := "a", created_at := 1 }
    ∧ dictGet
        (create_custom_protocol
          (create_custom_protocol [] "a" "p" "AES" 256 "OAuth 2.0" false 0 none []).1
          "a" "p" "RSA" 128 "LDAP" true 1 none []).1 (protocolId "a" "p") =
      some
        { id := protocolId "a" "p", name := "p", encryption_algorithm := "RSA",
          key_length := 128, authentication_method := "LDAP", bypass_security := true,
          user_id := "a", created_at := 1 } :=
  create_protocol_same_name_silent_overwrite [] "a" "p" "AES" "OAuth 2.0" "RSA" "LDAP"
    256 128 0 1 false true none none [] [] (by decide)

/-- Claim C10: protocol ids are not injective across distinct (owner, name)
pairs — owner "a" with name "b c" and owner "a_b" with name "c" both map to
id "a_b_c"; after "a" creates its protocol and then "a_b" creates (and thereby
replaces) under the colliding id, the original owner "a" gets Forbidden (403)
when applying the protocol it created. -/
theorem protocol_id_collision_hijack :
    protocolId "a" "b c" = protocolId "a_b" "c"
    ∧ dictGet
        (create_custom_protocol
          (create_custom_protocol [] "a" "b c" "AES" 256 "OAuth 2.0" false 0 none []).1
          "a_b" "c" "AES" 256 "OAuth 2.0" false 1 none []).1 (protocolId "a" "b c") =
      some
        { id := "a_b_c", name := "c", encryption_algorithm := "AES", key_length := 256,
          authentication_method := "OAuth 2.0", bypass_security := false,
          user_id := "a_b", created_at := 1 }
    ∧ (apply_custom_protocol
        (create_custom_protocol
          (create_custom_protocol [] "a" "b c" "AES" 256 "OAuth 2.0" false 0 none []).1
          "a_b" "c" "AES" 256 "OAuth 2.0" false 1 none []).1
        "a" (protocolId "a" "b c") "hello" 2 none []).2 =
      ApplyResult.err 403 "Access denied" := by decide

/-- Claim C3: credential verification through the login path returns a token
for the user id exactly when the user is present, the bcrypt hash matches,
and the account is active; an absent user and a wrong password produce the
identical 401 "Invalid credentials" response (indistinguishable), while an
inactive account is rejected without a token (403). -/
theorem login_verify_characterization (db : UsersDb) (secret u p : String)
    (now : Nat) (ip : Option String) (logs : List AuditEvent)
    (hu : u ≠ "") (hp : p ≠ "") :
    (∀ user : User, dictGet db u = some user → checkpw p user.password_hash = true →
        user.is_active = true →
        (login db secret u p now ip logs).2 =
          LoginResult.success (generate_jwt_token secret u now) u user.email)
    ∧ (dictGet db u = none →
        (login db secret u p now ip logs).2 = LoginResult.failure 401 "Invalid credentials")
    ∧ (∀ user : User, dictGet db u = some user → checkpw p user.password_hash = false →
        (login db secret u p now ip logs).2 = LoginResult.failure 401 "Invalid credentials")
    ∧ (∀ user : User, dictGet db u = some user → checkpw p user.password_hash = true →
        user.is_active = false →
        (login db secret u p now ip logs).2 = LoginResult.failure 403 "Account disabled") := by
  refine ⟨?_, ?_, ?_, ?_⟩
  · intro user hget hpw hact
    simp [login, authenticate_user, hu, hp, hget, hpw, hact]
  · intro hget
    simp [login, authenticate_user, hu, hp, hget]
  · intro user hget hpw
    simp [login, authenticate_user, hu, hp, hget, hpw]
  · intro user hget hpw hact
    simp [login, authenticate_user, hu, hp, hget, hpw, hact]

/-- Claim C3, witness: a registered active user "alice" with password "pw"
logs in successfully, and an absent user "bob" receives the same 401 response
a wrong password would. -/
theorem login_verify_characterization_witness :
    (login [("alice", aliceUser)] "s" "alice" "pw" 0 none []).2 =
      LoginResult.success (generate_jwt_token "s" "alice" 0) "alice" "a@x.com"
    ∧ (login [("alice", aliceUser)] "s" "bob" "pw" 0 none []).2 =
      LoginResult.failure 401 "Invalid credentials"
    ∧ (login [("alice", aliceUser)] "s" "alice" "wrong" 0 none []).2 =
      LoginResult.failure 401 "Invalid credentials" :=
  ⟨(login_verify_characterization [("alice", aliceUser)] "s" "alice" "pw" 0 none []
      (by decide) (by decide)).1 aliceUser (by decide) (by decide) (by decide),
   (login_verify_characterization [("alice", aliceUser)] "s" "bob" "pw" 0 none []
      (by decide) (by decide)).2.1 (by decide),
   (login_verify_characterization [("alice", aliceUser)] "s" "alice" "wrong" 0 none []
      (by decide) (by decide)).2.2.1 aliceUser (by decide) (by decide)⟩

/-- Claim C4 counterexample: the code collapses both failure modes to the
same value. An expired token (issued at 0, checked at 86400 = 24h) and a
token whose payload was mutated after signing both make `verify_jwt_token`
return `none` — the identical result, not distinct Expired vs Invalid
errors. -/
theorem verify_collapses_expired_and_invalid :
    verify_jwt_token "s" (generate_jwt_token "s" "alice" 0) 86400 = none
    ∧ verify_jwt_token "s"
        { payload := { user_id := "mallory", exp := 200000, iat := 0 },
          sig := ("s", { user_id := "alice", exp := 200000, iat := 0 }) } 86400 = none
    ∧ verify_jwt_token "s" (generate_jwt_token "s" "alice" 0) 86400 =
      verify_jwt_token "s"
        { payload := { user_id := "mallory", exp := 200000, iat := 0 },
          sig := ("s", { user_id := "alice", exp := 200000, iat := 0 }) } 86400 := by decide

/-- Claim C4 as amended: a token issued at T verifies to its user id at any
check time before T+24h, fails for any check time at or after T+24h, and
fails whenever payload or signature was mutated (signature no longer the MAC
of the payload) — but both failure modes yield the same `none` result rather
than distinct Expired and Invalid errors. -/
theorem token_verify_window_and_tamper (secret uid : String) (T Tp : Nat) :
    (Tp < T + 86400 →
      verify_jwt_token secret (generate_jwt_token secret uid T) Tp = some uid)
    ∧ (T + 86400 ≤ Tp →
      verify_jwt_token secret (generate_jwt_token secret uid T) Tp = none)
    ∧ (∀ tok : Jwt, tok.sig ≠ (secret, tok.payload) →
      verify_jwt_token secret tok Tp = none) := by
  refine ⟨?_, ?_, ?_⟩
  · intro h
    have hn : ¬(T + 86400 ≤ Tp) := by omega
    simp [verify_jwt_token, jwt_decode, generate_jwt_token, jwt_encode, hn]
  · intro h
    simp [verify_jwt_token, jwt_decode, generate_jwt_token, jwt_encode, h]
  · intro tok htamper
    simp [verify_jwt_token, jwt_decode, htamper]

/-- Claim C4 amended, witness: the token issued at 0 verifies at 86399 and
fails at 86400, and a tampered token fails at time 0. -/
theorem token_verify_window_and_tamper_witness :
    verify_jwt_token "s" (generate_jwt_token "s" "alice" 0) 86399 = some "alice"
    ∧ verify_jwt_token "s" (generate_jwt_token "s" "alice" 0) 86400 = none
    ∧ verify_jwt_token "s"
        { payload := { user_id := "mallory", exp := 200000, iat := 0 },
          sig := ("s", { user_id := "alice", exp := 200000, iat := 0 }) } 0 = none :=
  ⟨(token_verify_window_and_tamper "s" "alice" 0 86399).1 (by decide),
   (token_verify_window_and_tamper "s" "alice" 0 86400).2.1 (by decide),
   (token_verify_window_and_tamper "s" "alice" 0 0).2.2 _ (by decide)⟩

/-- Claim C6: with valid (nonempty) data, apply fails 404 when the protocol
id is unknown, fails 403 whenever the stored owner differs from the caller —
for every stored record, hence irrespective of its `bypass_security` flag —
and succeeds exactly when the caller is the owner. -/
theorem apply_protocol_ownership_enforced (db : ProtocolsDb) (caller pid data : String)
    (now : Nat) (ip : Option String) (logs : List AuditEvent) (h : data ≠ "") :
    (dictGet db pid = none →
      (apply_custom_protocol db caller pid data now ip logs).2 =
        ApplyResult.err 404 "Protocol not found")
    ∧ (∀ p : Protocol, dictGet db pid = some p → p.user_id ≠ caller →
      (apply_custom_protocol db caller pid data now ip logs).2 =
        ApplyResult.err 403 "Access denied")
    ∧ (∀ p : Protocol, dictGet db pid = some p → p.user_id = caller →
      ∃ s : String, (apply_custom_protocol db caller pid data now ip logs).2 =
        ApplyResult.success s p) := by
  refine ⟨?_, ?_, ?_⟩
  · intro hget
    simp [apply_custom_protocol, hget]
  · intro p hget howner
    simp [apply_custom_protocol, hget, howner]
  · intro p hget howner
    refine ⟨"Secured " ++ data ++ " with " ++ p.encryption_algorithm ++ ", " ++
      toString p.key_length ++ "-bit key, and " ++ p.authentication_method ++
      " authentication.", ?_⟩
    simp [apply_custom_protocol, hget, howner, h]

/-- Claim C6, witness: a protocol with `bypass_security = true` owned by "a"
is denied 403 to caller "b" and applies successfully for "a". -/
theorem apply_protocol_ownership_enforced_witness :
    (apply_custom_protocol [("a_p", protoA)] "b" "a_p" "hello" 1 none []).2 =
      ApplyResult.err 403 "Access denied"
    ∧ ∃ s : String,
      (apply_custom_protocol [("a_p", protoA)] "a" "a_p" "hello" 1 none []).2 =
        ApplyResult.success s protoA :=
  ⟨(apply_protocol_ownership_enforced [("a_p", protoA)] "b" "a_p" "hello" 1 none []
      (by decide)).2.1 protoA (by decide) (by decide),
   (apply_protocol_ownership_enforced [("a_p", protoA)] "a" "a_p" "hello" 1 none []
      (by decide)).2.2 protoA (by decide) (by decide)⟩

/-- Claim C7 counterexample: at the same check time 86400, an expired token
(issued at 0) and a token whose payload was mutated after signing drive the
gate to the very same output — the identical audit event with reason
"invalid_token" and the identical 401 response — so the logged reason does
not distinguish expired from invalid. -/
theorem gate_same_reason_for_expired_and_tampered :
    require_auth "s" (some (generate_jwt_token "s" "alice" 0)) 86400 none []
        (fun _ logs => (logs, 0)) =
      ([{ timestamp := 86400, event_type := "unauthorized_access", user_id := none,
          details := [("reason", "invalid_token")], source_ip := none }],
       GateResult.unauthorized "Invalid token")
    ∧ require_auth "s"
        (some { payload := { user_id := "mallory", exp := 200000, iat := 0 },
                sig := ("s", { user_id := "alice", exp := 200000, iat := 0 }) }) 86400 none []
        (fun _ logs => (logs, 0)) =
      ([{ timestamp := 86400, event_type := "unauthorized_access", user_id := none,
          details := [("reason", "invalid_token")], source_ip := none }],
       GateResult.unauthorized "Invalid token") := by decide

/-- Claim C7 as amended: a missing Authorization header appends an
unauthorized_access audit event with reason "no_token" and returns 401; any
token that fails verification (invalid or expired alike — the reason is
"invalid_token" in both cases) appends an unauthorized_access event and
returns 401, with the wrapped handler never executed (the output is a fixed
value independent of the handler); the handler runs exactly when verification
yields a nonempty user id, receiving that id. -/
theorem require_auth_gate {α : Type} (secret : String) (now : Nat) (ip : Option String)
    (logs : List AuditEvent) (handler : String → List AuditEvent → List AuditEvent × α) :
    (require_auth secret none now ip logs handler =
      (logs ++ [{ timestamp := now, event_type := "unauthorized_access", user_id := none,
                  details := [("reason", "no_token")], source_ip := ip }],
       GateResult.unauthorized "Authentication required"))
    ∧ (∀ tok : Jwt, verify_jwt_token secret tok now = none →
      require_auth secret (some tok) now ip logs handler =
        (logs ++ [{ timestamp := now, event_type := "unauthorized_access", user_id := none,
                    details := [("reason", "invalid_token")], source_ip := ip }],
         GateResult.unauthorized "Invalid token"))
    ∧ (∀ (tok : Jwt) (uid : String), verify_jwt_token secret tok now = some uid → uid ≠ "" →
      require_auth secret (some tok) now ip logs handler =
        ((handler uid logs).1, GateResult.ok (handler uid logs).2)) := by
  refine ⟨rfl, ?_, ?_⟩
  · intro tok hv
    simp [require_auth, hv, log_security_event]
  · intro tok uid hv huid
    simp [require_auth, hv, huid]

/-- Claim C7 amended, witness: the missing-header case logs reason "no_token",
and a freshly issued valid token reaches the handler with its user id. -/
theorem require_auth_gate_witness :
    require_auth "s" none 5 none [] (fun _ logs => (logs, 0)) =
      ([{ timestamp := 5, event_type := "unauthorized_access", user_id := none,
          details := [("reason", "no_token")], source_ip := none }],
       GateResult.unauthorized "Authentication required")
    ∧ require_auth "s" (some (generate_jwt_token "s" "alice" 0)) 5 none []
        (fun u logs => (logs, u)) = ([], GateResult.ok "alice") :=
  ⟨(require_auth_gate "s" 5 none [] (fun _ logs => (logs, 0))).1,
   (require_auth_gate "s" 5 none [] (fun u logs => (logs, u))).2.2
     (generate_jwt_token "s" "alice" 0) "alice" (by decide) (by decide)⟩

/-- Claim C8 counterexample: two concurrent registrations of the same
username "u", scheduled so that both pass the membership check before either
inserts (schedule thread0-check, thread1-check, thread0-insert,
thread1-insert), both return success — not exactly one success and one
Conflict. -/
theorem register_race_double_success :
    (runSchedule [] [regThreadA, regThreadB] [0, 1, 0, 1]).2.map RegThread.res =
      [some RegisterResult.success, some RegisterResult.success] := by decide

/-- Claim C8 as amended: the source's registration is a non-atomic
check-then-insert. When the two same-username calls run serially (one
completes before the other starts), exactly one succeeds and the other gets
Conflict, but under the interleaving in which both pass the check before
either inserts, both succeed. -/
theorem register_check_then_insert_races :
    ((runSchedule [] [regThreadA, regThreadB] [0, 0, 1, 1]).2.map RegThread.res =
      [some RegisterResult.success, some RegisterResult.conflict])
    ∧ ((runSchedule [] [regThreadA, regThreadB] [0, 1, 0, 1]).2.map RegThread.res =
      [some RegisterResult.success, some RegisterResult.success]) := by decide

/-- Claim C9: reading the security logs returns the log state unchanged, and
the returned view is exactly the audit events whose user_id equals the
authenticated caller's id, in insertion order: it is a sublist of the log
(order preserved), membership is equivalent to being a matching event of the
log, and it is the greatest such sublist (every sublist of matching events
embeds into it). -/
theorem security_logs_filter_characterization (logs : List AuditEvent) (uid : String) :
    (get_security_logs logs uid).1 = logs
    ∧ List.Sublist (get_security_logs logs uid).2 logs
    ∧ (∀ e : AuditEvent, e ∈ (get_security_logs logs uid).2 ↔ e ∈ logs ∧ e.user_id = some uid)
    ∧ (∀ s : List AuditEvent, List.Sublist s logs →
        (∀ e ∈ s, e.user_id = some uid) →
        List.Sublist s (get_security_logs logs uid).2) := by
  refine ⟨rfl, ?_, ?_, ?_⟩
  · exact List.filter_sublist logs
  · intro e
    simp [get_security_logs, List.mem_filter]
  · intro s hs hall
    have heq : s.filter (fun e => e.user_id == some uid) = s :=
      List.filter_eq_self.mpr (fun e he => by simp [hall e he])
    have hsub := hs.filter (fun e => e.user_id == some uid)
    rw [heq] at hsub
    exact hsub

/-- Claim C9, witness: on a two-event log the read leaves the log unchanged
and the view contains the event of user "a". -/
theorem security_logs_filter_characterization_witness :
    (get_security_logs [eventA, eventB] "a").1 = [eventA, eventB]
    ∧ eventA ∈ (get_security_logs [eventA, eventB] "a").2 :=
  ⟨(security_logs_filter_characterization [eventA, eventB] "a").1,
   ((security_logs_filter_characterization [eventA, eventB] "a").2.2.1 eventA).mpr
     ⟨by decide, by decide⟩⟩

end SecurityService
